import Mathlib

/-!
Shallow embedding of the crypto market-signal pipeline, translated from the
Python sources:

* signal scoring and guardrails — src/services/signal_service/main.py
* Wyckoff phase analysis — src/shared/theories.py (analyze_wyckoff)
* circuit breaker — src/shared/circuit_breaker.py
* ingestor cycle — src/services/market_data_service/main.py
* retry wrapper semantics — src/shared/retry.py (tenacity configuration)
* event-bus consumer loop — src/shared/events.py (subscribe_events)

Modelling conventions: Python floats are modelled as rationals (ℚ); Python
dicts with string keys as association lists or structures with optional
fields (a `.get(k, default)` becomes an `Option.getD`); a raised exception
that escapes a function as `Except.error`; wall-clock `time.time()` as an
explicit rational argument. Log lines, metrics counters, reason strings,
UUIDs and timestamps are omitted: no claim concerns them and they do not
feed back into control flow.
-/

set_option maxRecDepth 8000

namespace MarketSig

/-- Association-list lookup, modelling `dict.get(key)` on a string-keyed
Python dict (returns `none` when the key is absent). -/
def lookupA {α : Type} (m : List (String × α)) (k : String) : Option α :=
  (m.find? (fun p => p.fst == k)).map Prod.snd

/-- Python truthiness of an optional number: `None` and `0` are falsy. -/
def qTruthy : Option ℚ → Bool
  | none => false
  | some x => decide (x ≠ 0)

/-- Helper for substring search: does the first list start with the second? -/
def charsStartWith : List Char → List Char → Bool
  | _, [] => true
  | [], _ :: _ => false
  | a :: as, b :: bs => a == b && charsStartWith as bs

/-- Helper for substring search over character lists. -/
def charsContain : List Char → List Char → Bool
  | [], needle => needle.isEmpty
  | a :: as, needle => charsStartWith (a :: as) needle || charsContain as needle

/-- Python substring test `needle in hay` on strings. -/
def strContains (hay needle : String) : Bool :=
  charsContain hay.data needle.data

/-! ## Analysis-document data model

The Signal Service reads arbitrary analysis documents from MongoDB
(`generate_signal` takes `analysis_doc: Dict`), consulting only the keys
modelled below; every consulted leaf is optional, mirroring the `.get`
chains of the source. -/

/-- The `dow` sub-dict of a per-timeframe analysis. -/
structure DowInfo where
  trend : Option String
  bos_up : Option Bool
  bos_down : Option Bool
deriving DecidableEq, Repr

/-- The `wyckoff` sub-dict of a per-timeframe analysis. -/
structure WyckoffInfo where
  phase : Option String
  sos : Option Bool
  sow : Option Bool
  spring : Option Bool
  upthrust : Option Bool
deriving DecidableEq, Repr

/-- The `macd` sub-dict of the indicators dict. -/
structure MacdInfo where
  histogram : Option ℚ
deriving DecidableEq, Repr

/-- The `indicators` sub-dict of a per-timeframe analysis. -/
structure IndicatorInfo where
  rsi : Option ℚ
  macd : Option MacdInfo
  ema20 : Option ℚ
  ema50 : Option ℚ
  volume_spike : Option Bool
deriving DecidableEq, Repr

/-- One per-timeframe analysis dict (value of `symbol_analyses[symbol][tf]`). -/
structure TFA where
  dow : Option DowInfo
  wyckoff : Option WyckoffInfo
  indicators : Option IndicatorInfo
  current_price : Option ℚ
deriving DecidableEq, Repr

/-- The per-symbol map timeframe-string → analysis
(`analysis_doc["symbol_analyses"][symbol]`). -/
abbrev TFMap := List (String × TFA)

/-- The `dominance_analysis.interpretation` sub-dict. The source also reads
`btc_dominance`/`usdt_dominance` into local variables in `score_dominance`
but never uses them, so they are not modelled. -/
structure InterpInfo where
  btc_dom : Option String
  usdt_dom : Option String
deriving DecidableEq, Repr

/-- The `dominance_analysis` sub-dict of an analysis document. -/
structure DominanceInfo where
  interpretation : Option InterpInfo
deriving DecidableEq, Repr

/-- An analysis document as consulted by `SignalService.generate_signal`. -/
structure AnalysisDoc where
  symbol_analyses : List (String × TFMap)
  dominance_analysis : Option DominanceInfo
deriving DecidableEq, Repr

/-- Chain `analyses[tf].get("dow", {}).get("trend", "neutral")`. -/
def TFA.dowTrend (a : TFA) : String :=
  match a.dow with
  | none => "neutral"
  | some d => d.trend.getD "neutral"

/-- Chain `.get("dow", {}).get("bos_up", False)`. -/
def TFA.dowBosUp (a : TFA) : Bool :=
  match a.dow with
  | none => false
  | some d => d.bos_up.getD false

/-- Chain `.get("dow", {}).get("bos_down", False)`. -/
def TFA.dowBosDown (a : TFA) : Bool :=
  match a.dow with
  | none => false
  | some d => d.bos_down.getD false

/-- Chain `.get("wyckoff", {}).get("phase")`. -/
def TFA.wyPhase (a : TFA) : Option String :=
  a.wyckoff.bind WyckoffInfo.phase

/-- Chain `.get("wyckoff", {}).get("sos", False)`. -/
def TFA.wySos (a : TFA) : Bool :=
  match a.wyckoff with
  | none => false
  | some w => w.sos.getD false

/-- Chain `.get("wyckoff", {}).get("sow", False)`. -/
def TFA.wySow (a : TFA) : Bool :=
  match a.wyckoff with
  | none => false
  | some w => w.sow.getD false

/-- Chain `.get("wyckoff", {}).get("spring", False)`. -/
def TFA.wySpring (a : TFA) : Bool :=
  match a.wyckoff with
  | none => false
  | some w => w.spring.getD false

/-- Chain `.get("wyckoff", {}).get("upthrust", False)`. -/
def TFA.wyUpthrust (a : TFA) : Bool :=
  match a.wyckoff with
  | none => false
  | some w => w.upthrust.getD false

/-- Chain `.get("indicators", {}).get("rsi")`. -/
def TFA.indRsi (a : TFA) : Option ℚ :=
  a.indicators.bind IndicatorInfo.rsi

/-- Chain `.get("indicators", {}).get("macd", {}).get("histogram")`. -/
def TFA.indHistogram (a : TFA) : Option ℚ :=
  match a.indicators with
  | none => none
  | some i =>
    match i.macd with
    | none => none
    | some m => m.histogram

/-- Chain `.get("indicators", {}).get("ema20")`. -/
def TFA.indEma20 (a : TFA) : Option ℚ :=
  a.indicators.bind IndicatorInfo.ema20

/-- Chain `.get("indicators", {}).get("ema50")`. -/
def TFA.indEma50 (a : TFA) : Option ℚ :=
  a.indicators.bind IndicatorInfo.ema50

/-- Chain `.get("indicators", {}).get("volume_spike", False)`. -/
def TFA.indVolumeSpike (a : TFA) : Bool :=
  match a.indicators with
  | none => false
  | some i => i.volume_spike.getD false

/-- Chain `analysis_doc.get("dominance_analysis", {}).get("interpretation",
{}).get("btc_dom", "")`. -/
def btcDomInterp (doc : AnalysisDoc) : String :=
  match doc.dominance_analysis with
  | none => ""
  | some d =>
    match d.interpretation with
    | none => ""
    | some i => i.btc_dom.getD ""

/-- Chain `analysis_doc.get("dominance_analysis", {}).get("interpretation",
{}).get("usdt_dom", "")`. -/
def usdtDomInterp (doc : AnalysisDoc) : String :=
  match doc.dominance_analysis with
  | none => ""
  | some d =>
    match d.interpretation with
    | none => ""
    | some i => i.usdt_dom.getD ""

/-! ## Signal scoring — SignalService (src/services/signal_service/main.py) -/

/-- `SignalService.score_multi_timeframe_trend` — 30 points. Python computes
the sub-scores as `int(15 * matches / 3)` and `int(10 * matches / 2)` in
float arithmetic; for every `matches` in range these round-trip exactly to
the natural-number divisions used here (5·matches in both buckets). The
returned reason strings are omitted. -/
def score_multi_timeframe_trend (analyses : TFMap) (signal_type : String) : Nat :=
  let primary_matches :=
    (List.filter (fun tf =>
      match lookupA analyses tf with
      | none => false
      | some a =>
        (signal_type == "LONG" && TFA.dowTrend a == "bullish")
          || (signal_type == "SHORT" && TFA.dowTrend a == "bearish"))
      ["1d", "3d", "1w"]).length
  let primary_score := 15 * primary_matches / 3
  let secondary_matches :=
    (List.filter (fun tf =>
      match lookupA analyses tf with
      | none => false
      | some a =>
        (signal_type == "LONG"
            && (TFA.dowTrend a == "bullish" || TFA.dowTrend a == "neutral"))
          || (signal_type == "SHORT"
            && (TFA.dowTrend a == "bearish" || TFA.dowTrend a == "neutral")))
      ["4h", "8h"]).length
  let secondary_score := 10 * secondary_matches / 2
  let minor_score :=
    match lookupA analyses "1h" with
    | none => 0
    | some a =>
      if signal_type == "LONG" && (TFA.dowTrend a == "bullish" || TFA.dowBosUp a) then 5
      else if signal_type == "SHORT" && (TFA.dowTrend a == "bearish" || TFA.dowBosDown a) then 5
      else 0
  primary_score + secondary_score + minor_score

/-- `SignalService.score_wyckoff_pattern` — 15 points (reason strings
omitted). `phase in ["ACCUMULATION", "MARKUP"]` on a `None` phase is false. -/
def score_wyckoff_pattern (analyses : TFMap) (signal_type : String) : Nat :=
  match lookupA analyses "4h" with
  | none => 0
  | some a =>
    if signal_type == "LONG" then
      if (match TFA.wyPhase a with
          | some p => p == "ACCUMULATION" || p == "MARKUP"
          | none => false) || TFA.wySos a || TFA.wySpring a
      then 15 else 0
    else if signal_type == "SHORT" then
      if (match TFA.wyPhase a with
          | some p => p == "DISTRIBUTION" || p == "MARKDOWN"
          | none => false) || TFA.wySow a || TFA.wyUpthrust a
      then 15 else 0
    else 0

/-- `SignalService.score_indicators` — 20 points (RSI 7, MACD 7, EMA 6;
reason strings omitted). The source guards each block with Python
truthiness (`if rsi:`, `if histogram:`, `if ema20 and ema50 and
current_price:`), so a stored value of 0 skips the block exactly like an
absent value. -/
def score_indicators (analyses : TFMap) (signal_type : String) : Nat :=
  match lookupA analyses "4h" with
  | none => 0
  | some a =>
    let rsi_score :=
      match TFA.indRsi a with
      | none => 0
      | some r =>
        if r = 0 then 0
        else if signal_type = "LONG" ∧ r > 50 then (if r > 55 then 7 else 4)
        else if signal_type = "SHORT" ∧ r < 50 then (if r < 45 then 7 else 4)
        else 0
    let macd_score :=
      match TFA.indHistogram a with
      | none => 0
      | some h =>
        if h = 0 then 0
        else if signal_type = "LONG" ∧ h > 0 then 7
        else if signal_type = "SHORT" ∧ h < 0 then 7
        else 0
    let ema_score :=
      if qTruthy (TFA.indEma20 a) && qTruthy (TFA.indEma50 a) && qTruthy a.current_price then
        let e20 := (TFA.indEma20 a).getD 0
        let e50 := (TFA.indEma50 a).getD 0
        let cp := a.current_price.getD 0
        if signal_type = "LONG" ∧ cp > e20 ∧ e20 > e50 then 6
        else if signal_type = "SHORT" ∧ cp < e20 ∧ e20 < e50 then 6
        else 0
      else 0
    rsi_score + macd_score + ema_score

/-- `SignalService.score_volume` — 10 points; the direction argument is
accepted but unused, as in the source. -/
def score_volume (analyses : TFMap) (_signal_type : String) : Nat :=
  match lookupA analyses "4h" with
  | none => 0
  | some a => if TFA.indVolumeSpike a then 10 else 0

/-- `SignalService.score_dominance` — 15 points (reason strings omitted).
The ALT-LONG branch returns 0 outright (`return 0, [...]`) whenever the
BTC-dominance interpretation does not contain `falling_good_for_alts`, so
the +5 USDT bonus is only reachable behind that containment check. -/
def score_dominance (analysis_doc : AnalysisDoc) (signal_type : String)
    (is_btc : Bool) : Nat :=
  let btc_i := btcDomInterp analysis_doc
  let usdt_i := usdtDomInterp analysis_doc
  if is_btc then
    if signal_type = "LONG" then
      (if strContains btc_i "falling_good_for_alts" then 5 else 0)
        + (if strContains usdt_i "stable_or_falling" then 5 else 0)
    else if signal_type = "SHORT" then
      (if strContains btc_i "rising_money_into_btc" then 5 else 0)
        + (if strContains usdt_i "rising_risk_off" then 5 else 0)
    else 0
  else
    if signal_type = "LONG" then
      if strContains btc_i "falling_good_for_alts" then
        10 + (if strContains usdt_i "stable_or_falling" then 5 else 0)
      else 0
    else if signal_type = "SHORT" then
      (if strContains btc_i "rising_money_into_btc" then 8 else 0)
        + (if strContains usdt_i "rising_risk_off" then 7 else 0)
    else 0

/-- `SignalService.score_safety_checks` — constant 10 (simplified in the
source). -/
def score_safety_checks (_analyses : TFMap) : Nat := 10

/-- `SignalService.check_guardrails`: returns whether the guardrails pass
(the human-readable message is omitted). -/
def check_guardrails (analysis_doc : AnalysisDoc) (signal_type : String)
    (is_btc : Bool) : Bool :=
  if signal_type = "LONG" ∧ strContains (usdtDomInterp analysis_doc) "rising_risk_off" then
    false
  else if signal_type = "LONG" ∧ is_btc = false
      ∧ strContains (btcDomInterp analysis_doc) "rising_money_into_btc" then
    false
  else true

/-- The total score summed in `generate_signal` (lines 387–388). -/
def total_score (analysis_doc : AnalysisDoc) (symbol_analyses : TFMap)
    (signal_type : String) (is_btc : Bool) : Nat :=
  score_multi_timeframe_trend symbol_analyses signal_type
    + score_wyckoff_pattern symbol_analyses signal_type
    + score_indicators symbol_analyses signal_type
    + score_volume symbol_analyses signal_type
    + score_dominance analysis_doc signal_type is_btc
    + score_safety_checks symbol_analyses

/-- A generated signal (the fields of the dict built in `generate_signal`
that carry data: `signal_id` (UUID), `timestamp`, the reason strings and
the notes are omitted). -/
structure Signal where
  asset : String
  type : String
  score : Nat
  confidence : String
  entry_min : Option ℚ
  entry_max : Option ℚ
  take_profit : List ℚ
  stop_loss : ℚ
deriving DecidableEq, Repr

/-- The confidence bucket chosen in `generate_signal` (lines 394–400);
`none` models the third branch's `continue`, which is unreachable because
the score already passed the ≥ 60 test. -/
def confidence_for (ts : Nat) : Option String :=
  if 75 ≤ ts then some "HIGH"
  else if 60 ≤ ts then some "MEDIUM"
  else none

/-- The entry-price selection of `generate_signal` (lines 402–405): the 4h
current price if truthy, otherwise the 1h one. -/
def current_price_of (symbol_analyses : TFMap) : Option ℚ :=
  let cp4 := (lookupA symbol_analyses "4h").bind TFA.current_price
  if qTruthy cp4 then cp4
  else (lookupA symbol_analyses "1h").bind TFA.current_price

/-- The signal dict built in `generate_signal` (lines 407–439) once a
current price `p` is available. The inner conditional expressions test
Python truthiness of `p`, so a price of exactly 0 yields empty entry range
and take-profit list and a stop-loss of 0·1.02. -/
def build_signal (symbol signal_type : String) (ts : Nat) (confidence : String)
    (p : ℚ) : Signal :=
  { asset := symbol
    type := signal_type
    score := ts
    confidence := confidence
    entry_min := if p ≠ 0 then some (p * 0.995) else none
    entry_max := if p ≠ 0 then some (p * 1.005) else none
    take_profit :=
      if p ≠ 0 then
        if signal_type == "LONG" then [p * 1.02, p * 1.05]
        else [p * 0.98, p * 0.95]
      else []
    stop_loss :=
      if p ≠ 0 ∧ signal_type == "LONG" then p * 0.98 else p * 1.02 }

/-- One iteration of `generate_signal`'s direction loop for a fixed
direction: guardrail check, scoring, threshold test and signal
construction. `Except.error` models the `TypeError` the source raises when
it evaluates `current_price * 1.02` for `stop_loss` with `current_price`
still `None` (neither the 4h nor the 1h analysis carries a truthy price);
`Except.ok none` models `continue`. -/
def try_direction (symbol : String) (analysis_doc : AnalysisDoc)
    (symbol_analyses : TFMap) (signal_type : String) : Except Unit (Option Signal) :=
  let is_btc := symbol == "BTCUSDT"
  if check_guardrails analysis_doc signal_type is_btc = false then
    Except.ok none
  else
    let ts := total_score analysis_doc symbol_analyses signal_type is_btc
    if ts < 60 then
      Except.ok none
    else
      match confidence_for ts with
      | none => Except.ok none
      | some confidence =>
        match current_price_of symbol_analyses with
        | none => Except.error ()
        | some p =>
          Except.ok (some (build_signal symbol signal_type ts confidence p))

/-- The per-symbol map the source reads:
`analysis_doc.get("symbol_analyses", {}).get(symbol, {})`. -/
def saOf (symbol : String) (analysis_doc : AnalysisDoc) : TFMap :=
  (lookupA analysis_doc.symbol_analyses symbol).getD []

/-- `SignalService.generate_signal`: empty per-symbol analyses short-circuit
to no signal; otherwise the directions are tried in the order LONG, SHORT
and the first direction that produces a signal wins. -/
def generate_signal (symbol : String) (analysis_doc : AnalysisDoc) :
    Except Unit (Option Signal) :=
  let symbol_analyses := saOf symbol analysis_doc
  if symbol_analyses.isEmpty then
    Except.ok none
  else
    match try_direction symbol analysis_doc symbol_analyses "LONG" with
    | Except.error e => Except.error e
    | Except.ok (some s) => Except.ok (some s)
    | Except.ok none => try_direction symbol analysis_doc symbol_analyses "SHORT"

/-- Projection used to state results: the signal of a non-raising run. -/
def okSignal? : Except Unit (Option Signal) → Option Signal
  | Except.ok s => s
  | Except.error _ => none

/-- Projection: did the run raise (model of the escaping `TypeError`)? -/
def raised : Except Unit (Option Signal) → Bool
  | Except.ok _ => false
  | Except.error _ => true

/-! ## Concrete documents for scenarios and witnesses -/

/-- A timeframe analysis carrying only a Dow trend. -/
def tfaTrend (t : String) : TFA :=
  { dow := some { trend := some t, bos_up := none, bos_down := none }
    wyckoff := none
    indicators := none
    current_price := none }

/-- The 4h analysis of spec scenario 1 (LONG-BTC HIGH): bullish, SOS,
RSI 58, positive MACD histogram, price 110 > ema20 100 > ema50 90,
volume spike. -/
def tfa4hS1 : TFA :=
  { dow := some { trend := some "bullish", bos_up := none, bos_down := none }
    wyckoff := some
      { phase := none, sos := some true, sow := some false
        spring := some false, upthrust := some false }
    indicators := some
      { rsi := some 58, macd := some { histogram := some 1 }
        ema20 := some 100, ema50 := some 90, volume_spike := some true }
    current_price := some 110 }

/-- The 1h analysis of spec scenario 1: bullish with BOS up. -/
def tfa1hS1 : TFA :=
  { dow := some { trend := some "bullish", bos_up := some true, bos_down := none }
    wyckoff := none
    indicators := none
    current_price := some 110 }

/-- The analysis document of spec scenario 1 (LONG-BTC HIGH): primary
timeframes all bullish, 8h neutral (so the secondary bucket scores its
full 10 as the scenario expects), BTC.D `falling_good_for_alts`, USDT.D
`stable_or_falling`. -/
def docS1 : AnalysisDoc :=
  { symbol_analyses :=
      [("BTCUSDT",
        [("1d", tfaTrend "bullish"), ("3d", tfaTrend "bullish")
         , ("1w", tfaTrend "bullish"), ("4h", tfa4hS1)
         , ("8h", tfaTrend "neutral"), ("1h", tfa1hS1)])]
    dominance_analysis := some
      { interpretation := some
          { btc_dom := some "falling_good_for_alts"
            usdt_dom := some "stable_or_falling" } } }

/-- The signal the embedded scorer produces on `docS1` (score 95: the code
awards RSI 58 the full 7 points since 58 > 55). -/
def sigS1 : Signal :=
  { asset := "BTCUSDT"
    type := "LONG"
    score := 95
    confidence := "HIGH"
    entry_min := some 109.45
    entry_max := some 110.55
    take_profit := [112.2, 115.5]
    stop_loss := 107.8 }

/-- Like scenario 1 but with every `current_price` absent (and hence no EMA
contribution): the LONG direction still passes the guardrails and scores
89 ≥ 60, yet signal construction multiplies `None` by a float. -/
def tfa4hNoPrice : TFA :=
  { dow := some { trend := some "bullish", bos_up := none, bos_down := none }
    wyckoff := some
      { phase := none, sos := some true, sow := some false
        spring := some false, upthrust := some false }
    indicators := some
      { rsi := some 58, macd := some { histogram := some 1 }
        ema20 := some 100, ema50 := some 90, volume_spike := some true }
    current_price := none }

/-- The 1h analysis with no price, for the no-price document. -/
def tfa1hNoPrice : TFA :=
  { dow := some { trend := some "bullish", bos_up := some true, bos_down := none }
    wyckoff := none
    indicators := none
    current_price := none }

/-- A document on which the LONG direction qualifies (score 89) but no
timeframe carries a current price. -/
def docNoPrice : AnalysisDoc :=
  { symbol_analyses :=
      [("BTCUSDT",
        [("1d", tfaTrend "bullish"), ("3d", tfaTrend "bullish")
         , ("1w", tfaTrend "bullish"), ("4h", tfa4hNoPrice)
         , ("8h", tfaTrend "neutral"), ("1h", tfa1hNoPrice)])]
    dominance_analysis := some
      { interpretation := some
          { btc_dom := some "falling_good_for_alts"
            usdt_dom := some "stable_or_falling" } } }

/-- A document whose USDT-dominance interpretation is the risk-off value
(trips the LONG guardrail for every symbol). -/
def docRiskOff : AnalysisDoc :=
  { symbol_analyses := [("SOLUSDT", [("4h", tfaTrend "bullish")])]
    dominance_analysis := some
      { interpretation := some
          { btc_dom := some "neutral"
            usdt_dom := some "rising_risk_off_shorts_favored" } } }

/-- A document with a neutral BTC-dominance interpretation and
stable-or-falling USDT dominance (for the altcoin dominance-scoring
counterexample). -/
def docAltNeutral : AnalysisDoc :=
  { symbol_analyses := [("SOLUSDT", [("4h", tfaTrend "bullish")])]
    dominance_analysis := some
      { interpretation := some
          { btc_dom := some "neutral"
            usdt_dom := some "stable_or_falling" } } }

/-! ## Wyckoff analysis — analyze_wyckoff (src/shared/theories.py)

Only the OHLCV columns the function reads are modelled (`open` and
`timestamp` are never consulted). numpy float arithmetic is modelled in ℚ;
the `x / 0 = 0` convention of ℚ is only reachable where numpy would produce
inf/nan (a zero close at index −2), which no claim exercises. -/

/-- One candle row as consumed by `analyze_wyckoff`. -/
structure Candle where
  high : ℚ
  low : ℚ
  close : ℚ
  volume : ℚ
deriving DecidableEq, Repr

/-- Python slice `xs[-n:]`. -/
def lastN {α : Type} (n : Nat) (xs : List α) : List α :=
  xs.drop (xs.length - n)

/-- `np.mean` of a list (the source only applies it to non-empty slices). -/
def qMean (xs : List ℚ) : ℚ :=
  xs.sum / (xs.length : ℚ)

/-- `np.max` of a list (the source only applies it to non-empty slices). -/
def qMax : List ℚ → ℚ
  | [] => 0
  | x :: xs => xs.foldl max x

/-- `np.min` of a list (the source only applies it to non-empty slices). -/
def qMin : List ℚ → ℚ
  | [] => 0
  | x :: xs => xs.foldl min x

/-- Python negative index `xs[-k]` (the source only uses it in bounds). -/
def backIdx (xs : List ℚ) (k : Nat) : ℚ :=
  (xs.drop (xs.length - k)).headD 0

/-- Local `price_position` of `analyze_wyckoff`: current close mapped into
the 20-bar high–low range; 0.5 when the range is degenerate. -/
def wyPricePosition (df : List Candle) : ℚ :=
  let recent_high := qMax (lastN 20 (df.map Candle.high))
  let recent_low := qMin (lastN 20 (df.map Candle.low))
  let price_range := recent_high - recent_low
  let current_price := backIdx (df.map Candle.close) 1
  if price_range > 0 then (current_price - recent_low) / price_range else 0.5

/-- Local `volume_ratio`: mean of last 5 volumes over mean of last 20;
1 when the 20-bar average is non-positive. -/
def wyVolumeRatio (df : List Candle) : ℚ :=
  let recent_volume := qMean (lastN 5 (df.map Candle.volume))
  let avg_volume := qMean (lastN 20 (df.map Candle.volume))
  if avg_volume > 0 then recent_volume / avg_volume else 1

/-- Local `short_ma`: mean of the last 10 closes. -/
def wyShortMA (df : List Candle) : ℚ :=
  qMean (lastN 10 (df.map Candle.close))

/-- Local `long_ma`: mean of the last 30 closes. -/
def wyLongMA (df : List Candle) : ℚ :=
  qMean (lastN 30 (df.map Candle.close))

/-- Local `spring` flag: false breakdown below the prior low. -/
def wySpringFlag (df : List Candle) : Bool :=
  if wyPricePosition df < 0.3 then
    if 3 ≤ df.length then
      decide (backIdx (df.map Candle.low) 1 < backIdx (df.map Candle.low) 2
        ∧ backIdx (df.map Candle.close) 1 > backIdx (df.map Candle.low) 2)
    else false
  else false

/-- Local `upthrust` flag: false breakout above the prior high. -/
def wyUpthrustFlag (df : List Candle) : Bool :=
  if wyPricePosition df > 0.7 then
    if 3 ≤ df.length then
      decide (backIdx (df.map Candle.high) 1 > backIdx (df.map Candle.high) 2
        ∧ backIdx (df.map Candle.close) 1 < backIdx (df.map Candle.high) 2)
    else false
  else false

/-- Local `sos` flag: 1-bar return above 2% with volume ratio above 1.3. -/
def wySosFlag (df : List Candle) : Bool :=
  if 2 ≤ df.length then
    decide ((backIdx (df.map Candle.close) 1 - backIdx (df.map Candle.close) 2)
        / backIdx (df.map Candle.close) 2 > 0.02
      ∧ wyVolumeRatio df > 1.3)
  else false

/-- Local `sow` flag: 1-bar return below −2% with volume ratio above 1.3. -/
def wySowFlag (df : List Candle) : Bool :=
  if 2 ≤ df.length then
    decide ((backIdx (df.map Candle.close) 1 - backIdx (df.map Candle.close) 2)
        / backIdx (df.map Candle.close) 2 < -0.02
      ∧ wyVolumeRatio df > 1.3)
  else false

/-- The phase decision of `analyze_wyckoff` (lines 176–188). The `elif`
chain attaches to the outer `if`, so a hit on an outer condition whose
inner condition fails leaves the phase `None` without trying later rows. -/
def wyPhaseOf (df : List Candle) : Option String :=
  let pp := wyPricePosition df
  let vr := wyVolumeRatio df
  let sma := wyShortMA df
  let lma := wyLongMA df
  let closes := df.map Candle.close
  if pp < 0.3 ∧ sma < lma then
    if wySpringFlag df = true ∨ (vr > 1.2 ∧ backIdx closes 1 > backIdx closes 5) then
      some "ACCUMULATION"
    else none
  else if pp > 0.3 ∧ sma > lma ∧ vr > 1.1 then
    some "MARKUP"
  else if pp > 0.7 ∧ sma > lma then
    if wyUpthrustFlag df = true ∨ (vr < 0.9 ∧ backIdx closes 1 < backIdx closes 5) then
      some "DISTRIBUTION"
    else none
  else if pp < 0.7 ∧ sma < lma ∧ vr > 1.1 then
    some "MARKDOWN"
  else none

/-- The dict returned by `analyze_wyckoff` (phase value `None` is
`Option.none`). -/
structure WyckoffResult where
  phase : Option String
  spring : Bool
  upthrust : Bool
  sos : Bool
  sow : Bool
  price_position : ℚ
  volume_ratio : ℚ
  strength : ℚ
deriving DecidableEq, Repr

/-- `analyze_wyckoff`: `None` (here `none`) for fewer than 50 candles,
otherwise the full result dict. -/
def analyze_wyckoff (df : List Candle) : Option WyckoffResult :=
  if df.length < 50 then none
  else some
    { phase := wyPhaseOf df
      spring := wySpringFlag df
      upthrust := wyUpthrustFlag df
      sos := wySosFlag df
      sow := wySowFlag df
      price_position := wyPricePosition df
      volume_ratio := wyVolumeRatio df
      strength :=
        if wySosFlag df = true ∨ wySpringFlag df = true then 0.8
        else if (wyPhaseOf df).isSome then 0.6
        else 0.3 }

/-- A candle series of 50 bars whose derived quantities sit exactly on the
MARKUP boundary: the last-20 window spans lows 0 to highs 10, the last
close is 3, so `price_position` is exactly 0.3; the last 10 closes average
3 against a 30-bar average of 5/3 (short MA above long MA); the last 5
volumes average 20 against a 20-bar average of 12.5 (`volume_ratio` 1.6).
Bars 1–30: high 5, low 1, close 1, volume 10 (closes of bars 41–50 are 3).
Bar 31 carries the window's low 0 and bar 50 the window's high 10. -/
def dfBoundary03 : List Candle :=
  (List.replicate 30 { high := 5, low := 1, close := 1, volume := 10 })
    ++ [{ high := 5, low := 0, close := 1, volume := 10 }]
    ++ (List.replicate 9 { high := 5, low := 1, close := 1, volume := 10 })
    ++ (List.replicate 5 { high := 5, low := 1, close := 3, volume := 10 })
    ++ (List.replicate 4 { high := 5, low := 1, close := 3, volume := 20 })
    ++ [{ high := 10, low := 1, close := 3, volume := 20 }]

/-- A 50-bar series on the MARKDOWN boundary: range lows 0 to highs 10,
last close 7 (`price_position` exactly 0.7), last 10 closes average 7
against a 30-bar average of 25/3 (short MA below long MA),
`volume_ratio` 1.6. -/
def dfBoundary07 : List Candle :=
  (List.replicate 20 { high := 5, low := 1, close := 9, volume := 10 })
    ++ (List.replicate 10 { high := 5, low := 1, close := 9, volume := 10 })
    ++ [{ high := 5, low := 0, close := 7, volume := 10 }]
    ++ (List.replicate 9 { high := 5, low := 1, close := 7, volume := 10 })
    ++ (List.replicate 5 { high := 5, low := 1, close := 7, volume := 10 })
    ++ (List.replicate 4 { high := 5, low := 1, close := 7, volume := 20 })
    ++ [{ high := 10, low := 1, close := 7, volume := 20 }]

/-- `dfBoundary07` with the last closes lowered to 5 (`price_position` 0.5,
strictly inside the MARKDOWN region: short MA 5 below long MA 19/3). -/
def dfMarkdown05 : List Candle :=
  (List.replicate 20 { high := 5, low := 1, close := 9, volume := 10 })
    ++ (List.replicate 10 { high := 5, low := 1, close := 9, volume := 10 })
    ++ [{ high := 5, low := 0, close := 5, volume := 10 }]
    ++ (List.replicate 9 { high := 5, low := 1, close := 5, volume := 10 })
    ++ (List.replicate 5 { high := 5, low := 1, close := 5, volume := 10 })
    ++ (List.replicate 4 { high := 5, low := 1, close := 5, volume := 20 })
    ++ [{ high := 10, low := 1, close := 5, volume := 20 }]

/-- `dfBoundary03` with the last close raised to 4 (`price_position` 0.4,
strictly inside the MARKUP region) — the witness series. -/
def dfMarkup04 : List Candle :=
  (List.replicate 30 { high := 5, low := 1, close := 1, volume := 10 })
    ++ [{ high := 5, low := 0, close := 1, volume := 10 }]
    ++ (List.replicate 9 { high := 5, low := 1, close := 1, volume := 10 })
    ++ (List.replicate 5 { high := 5, low := 1, close := 4, volume := 10 })
    ++ (List.replicate 4 { high := 5, low := 1, close := 4, volume := 20 })
    ++ [{ high := 10, low := 1, close := 4, volume := 20 }]

/-! ## Circuit breaker — src/shared/circuit_breaker.py

Wall-clock `time.time()` is modelled as the explicit instant `now`, taken
to be the same reading for the open-check and the failure handler within
one call. -/

/-- The three breaker states (`CircuitState` enum of the source). -/
inductive CircuitState where
  | CLOSED
  | OPEN
  | HALF_OPEN
deriving DecidableEq, Repr

/-- The mutable fields of a `CircuitBreaker` instance plus its
configuration (the `name` and `expected_exception` fields play no role in
the transition logic; `expected_exception` defaults to `Exception`, which
every modelled failure matches). -/
structure CircuitBreaker where
  failure_threshold : Nat
  recovery_timeout : ℚ
  failure_window : ℚ
  failure_count : Nat
  last_failure_time : Option ℚ
  state : CircuitState
  next_attempt_time : Option ℚ
deriving DecidableEq, Repr

/-- A fresh breaker as built by `CircuitBreaker.__init__`. -/
def mkCircuitBreaker (failure_threshold : Nat) (recovery_timeout failure_window : ℚ) :
    CircuitBreaker :=
  { failure_threshold := failure_threshold
    recovery_timeout := recovery_timeout
    failure_window := failure_window
    failure_count := 0
    last_failure_time := none
    state := CircuitState.CLOSED
    next_attempt_time := none }

/-- A breaker that has just tripped at instant 10 with a 60-second recovery
timeout (used to exercise the OPEN-state transitions). -/
def cbOpenW : CircuitBreaker :=
  { failure_threshold := 5
    recovery_timeout := 60
    failure_window := 60
    failure_count := 5
    last_failure_time := some 10
    state := CircuitState.OPEN
    next_attempt_time := some 70 }

/-- Outcome of one `CircuitBreaker.call`: rejected without invoking the
wrapped function (`CircuitBreakerOpenError`), invoked and returned, or
invoked and re-raised the function's exception. -/
inductive CallResult where
  | rejected
  | succeeded
  | failed
deriving DecidableEq, Repr

/-- `CircuitBreaker._on_success`. -/
def CircuitBreaker.on_success (cb : CircuitBreaker) : CircuitBreaker :=
  match cb.state with
  | CircuitState.HALF_OPEN => { cb with state := CircuitState.CLOSED, failure_count := 0 }
  | CircuitState.CLOSED => { cb with failure_count := 0 }
  | CircuitState.OPEN => cb

/-- `CircuitBreaker._on_failure`. The window reset is guarded by Python
truthiness of `last_failure_time` (a recorded time of exactly 0 is falsy,
like `None`). -/
def CircuitBreaker.on_failure (cb : CircuitBreaker) (now : ℚ) : CircuitBreaker :=
  let reset :=
    match cb.last_failure_time with
    | none => false
    | some t => decide (t ≠ 0) && decide (now - t > cb.failure_window)
  let new_count := (if reset then 0 else cb.failure_count) + 1
  let cb1 := { cb with failure_count := new_count, last_failure_time := some now }
  match cb.state with
  | CircuitState.HALF_OPEN =>
    { cb1 with state := CircuitState.OPEN
               next_attempt_time := some (now + cb.recovery_timeout) }
  | _ =>
    if cb.failure_threshold ≤ new_count then
      { cb1 with state := CircuitState.OPEN
                 next_attempt_time := some (now + cb.recovery_timeout) }
    else cb1

/-- `CircuitBreaker.call` at instant `now` on a function whose invocation
would fail iff `funcFails`. In the source an OPEN breaker always carries a
`next_attempt_time` (both transitions into OPEN set it), so the `getD 0`
used for the `none` case is unreachable from a fresh breaker. -/
def CircuitBreaker.call (cb : CircuitBreaker) (now : ℚ) (funcFails : Bool) :
    CallResult × CircuitBreaker :=
  let gate : Option CircuitBreaker :=
    match cb.state with
    | CircuitState.OPEN =>
      if now < cb.next_attempt_time.getD 0 then none
      else some { cb with state := CircuitState.HALF_OPEN }
    | _ => some cb
  match gate with
  | none => (CallResult.rejected, cb)
  | some cb1 =>
    if funcFails then (CallResult.failed, cb1.on_failure now)
    else (CallResult.succeeded, cb1.on_success)

/-- Repeatedly apply `CircuitBreaker.call`, keeping the breaker state;
each list entry is an instant paired with whether that call's function
invocation would fail. -/
def runCalls (cb : CircuitBreaker) (calls : List (ℚ × Bool)) : CircuitBreaker :=
  calls.foldl (fun c pr => (CircuitBreaker.call c pr.fst pr.snd).snd) cb

/-- Gap condition on a failure-time sequence: each time is within
`failure_window` of its predecessor (the first is unconstrained when no
prior failure is recorded). This guarantees the window reset in
`_on_failure` never fires along the sequence. -/
def gapsOk (w : ℚ) : Option ℚ → List ℚ → Bool
  | _, [] => true
  | none, t :: ts => gapsOk w (some t) ts
  | some t0, t :: ts => decide (t - t0 ≤ w) && gapsOk w (some t) ts

/-! ## Ingestor cycle — MarketDataService.fetch_and_store_all
(src/services/market_data_service/main.py)

One cycle is a pure function of the outcomes of its external calls
(`none` models every path on which the fetch helper returns `None`) and of
whether the MongoDB insert succeeds (`store_market_data`'s return value).
Timestamps, ids, tracing spans and metrics are omitted. -/

/-- The `market_metrics` sub-dict of a snapshot: every field individually
nullable, failed fetches stored as `None`. -/
structure MarketMetrics where
  btc_dominance : Option ℚ
  usdt_dominance : Option ℚ
  total_market_cap : Option ℚ
  btc_volatility : Option ℚ
deriving DecidableEq, Repr

/-- The `all_data` document built by a cycle. -/
structure MarketSnapshot where
  prices : List (String × ℚ)
  candlesticks : List (String × List (String × List Candle))
  market_metrics : MarketMetrics
deriving DecidableEq, Repr

/-- The environment of one ingest cycle: per-symbol price outcomes,
per-(symbol, timeframe) candle outcomes, metric outcomes, and whether the
database insert succeeds. -/
structure CycleEnv where
  coins : List String
  timeframes : List String
  price_result : String → Option ℚ
  candle_result : String → String → Option (List Candle)
  btc_dom_result : Option ℚ
  usdt_dom_result : Option ℚ
  total_mcap_result : Option ℚ
  btc_vol_result : Option ℚ
  db_write_ok : Bool

/-- What one cycle produced: the snapshot handed to `store_market_data`,
whether it was persisted, whether `market_data_updated` was emitted, and
the `coins` list of the emitted event payload. -/
structure CycleOutcome where
  snapshot : MarketSnapshot
  stored : Bool
  emitted : Bool
  event_coins : List String
deriving DecidableEq, Repr

/-- `MarketDataService.fetch_and_store_all`. A fetched price enters the
snapshot only when truthy (`if price:`); a candle frame only when present
and non-empty; the `1m` timeframe is skipped; metric failures are stored
as `None` values. The dict-filling loops are modelled as `filterMap`/
`foldl` in iteration order. The event is published exactly when
`store_market_data` returned `True` — the source never tests whether any
price was obtained. -/
def fetch_and_store_all (env : CycleEnv) : CycleOutcome :=
  let prices := env.coins.filterMap (fun symbol =>
    match env.price_result symbol with
    | some p => if p ≠ 0 then some (symbol, p) else none
    | none => none)
  let candles := env.coins.map (fun symbol =>
    (symbol,
      (env.timeframes.filter (fun tf => tf != "1m")).foldl (fun acc tf =>
        match env.candle_result symbol tf with
        | some df => if 0 < df.length then acc ++ [(tf, df)] else acc
        | none => acc) []))
  let snapshot : MarketSnapshot :=
    { prices := prices
      candlesticks := candles
      market_metrics :=
        { btc_dominance := env.btc_dom_result
          usdt_dominance := env.usdt_dom_result
          total_market_cap := env.total_mcap_result
          btc_volatility := env.btc_vol_result } }
  if env.db_write_ok then
    { snapshot := snapshot, stored := true, emitted := true
      event_coins := prices.map Prod.fst }
  else
    { snapshot := snapshot, stored := false, emitted := false, event_coins := [] }

/-- A cycle in which every external call fails but the database write
succeeds. -/
def envAllFetchesFail : CycleEnv :=
  { coins := ["BTCUSDT", "ETHUSDT"]
    timeframes := ["1m", "1h", "4h", "8h", "1d", "3d", "1w"]
    price_result := fun _ => none
    candle_result := fun _ _ => none
    btc_dom_result := none
    usdt_dom_result := none
    total_mcap_result := none
    btc_vol_result := none
    db_write_ok := true }

/-- A cycle with prices obtained but a failing database write. -/
def envDbFail : CycleEnv :=
  { coins := ["BTCUSDT"]
    timeframes := ["1h"]
    price_result := fun _ => some 50000
    candle_result := fun _ _ => none
    btc_dom_result := some 55
    usdt_dom_result := none
    total_mcap_result := none
    btc_vol_result := none
    db_write_ok := false }

/-! ## Retry wrapper — src/shared/retry.py and MarketDataService.fetch_price

`retry_with_backoff` configures the third-party tenacity decorator with
`stop=stop_after_attempt(max_attempts)`, `retry=retry_if_exception_type(...)`
and `reraise=True`; its documented semantics — re-invoke the wrapped
function only when it raised a retryable exception, reraise the last
exception after `max_attempts` attempts — is modelled by `tenacityRetry`
(sleep durations are timing-only and not modelled). -/

/-- Auxiliary loop for `tenacityRetry`: `made` attempts already made,
`remaining` attempts allowed. -/
def tenacityRetryAux {α : Type} (f : Nat → Except Unit α) :
    Nat → Nat → Nat × Except Unit α
  | made, 0 => (made, Except.error ())
  | made, Nat.succ rem =>
    match f (made : Nat) with
    | Except.ok v => (made + 1, Except.ok v)
    | Except.error e =>
      if rem = 0 then (made + 1, Except.error e)
      else tenacityRetryAux f (made + 1) rem

/-- Retry-on-exception with at most `maxAttempts` attempts; returns how
many attempts were made together with the final outcome. -/
def tenacityRetry {α : Type} (maxAttempts : Nat) (f : Nat → Except Unit α) :
    Nat × Except Unit α :=
  tenacityRetryAux f 0 maxAttempts

/-- The body of `MarketDataService.fetch_price` (everything inside the
decorated function): one circuit-guarded HTTP fetch whose own outcome is
`http_result` (`Except.error` models the request raising). Returns how
many times the underlying HTTP call was actually made (0 when the breaker
rejects) and the value `fetch_price` returns. Both the
`CircuitBreakerOpenError` handler and the outer `except Exception` handler
return `None`, so the body never lets an exception escape. -/
def fetch_price_body (cb : CircuitBreaker) (now : ℚ) (http_result : Except Unit ℚ) :
    (Nat × Option ℚ) × CircuitBreaker :=
  let fails := match http_result with
    | Except.ok _ => false
    | Except.error _ => true
  match CircuitBreaker.call cb now fails with
  | (CallResult.rejected, cb1) => ((0, none), cb1)
  | (CallResult.succeeded, cb1) => ((1, http_result.toOption), cb1)
  | (CallResult.failed, cb1) => ((1, none), cb1)

/-- The decorated `fetch_price`: the body wrapped in
`@retry_with_backoff(max_attempts=3, retry_exceptions=(Exception,))`.
Since the body never raises, every tenacity attempt sees `Except.ok`.
Returns (total underlying HTTP attempts, returned price, final breaker). -/
def fetch_price (cb : CircuitBreaker) (now : ℚ) (http_result : Except Unit ℚ) :
    Nat × Option ℚ × CircuitBreaker :=
  let body := fetch_price_body cb now http_result
  let wrapped := tenacityRetry 3 (fun _ => Except.ok body.fst.snd)
  (body.fst.fst * wrapped.fst,
    (match wrapped.snd with
     | Except.ok v => v
     | Except.error _ => none),
    body.snd)

/-! ## Event-bus consumer — subscribe_events (src/shared/events.py)

Per-message processing inside the read loop: decode the `data` field,
run the handler, acknowledge. The single `client.xack` call sits directly
after the handler inside the same `try`, so it runs exactly when decoding
and the handler both completed; every exception lands in one of the two
`except` blocks, which log (and count metrics) but never acknowledge. -/

/-- How the subscriber's handler behaves on a message. -/
inductive HandlerOutcome where
  | returns
  | raisesService
  | raisesOther
deriving DecidableEq, Repr

/-- Observable outcome of processing one delivered message. -/
structure MessageResult where
  acked : Bool
  handler_ran : Bool
  logged_error : Bool
deriving DecidableEq, Repr

/-- One iteration of the message loop of `subscribe_events` for a message
whose `data` field parses iff `data_is_valid_json`, with the given handler
behaviour. `json.loads` raising (a `ValueError`, not a `ServiceError`)
lands in the generic `except Exception` block. -/
def process_message (data_is_valid_json : Bool) (handler : HandlerOutcome) :
    MessageResult :=
  if data_is_valid_json = false then
    { acked := false, handler_ran := false, logged_error := true }
  else
    match handler with
    | HandlerOutcome.returns => { acked := true, handler_ran := true, logged_error := false }
    | HandlerOutcome.raisesService => { acked := false, handler_ran := true, logged_error := true }
    | HandlerOutcome.raisesOther => { acked := false, handler_ran := true, logged_error := true }

/-! ## Helper lemmas: score bounds -/

theorem score_multi_timeframe_trend_le (analyses : TFMap) (t : String) :
    score_multi_timeframe_trend analyses t ≤ 30 := by
  unfold score_multi_timeframe_trend
  have h1 := List.length_filter_le
    (fun tf =>
      match lookupA analyses tf with
      | none => false
      | some a =>
        (t == "LONG" && TFA.dowTrend a == "bullish")
          || (t == "SHORT" && TFA.dowTrend a == "bearish"))
    ["1d", "3d", "1w"]
  have h2 := List.length_filter_le
    (fun tf =>
      match lookupA analyses tf with
      | none => false
      | some a =>
        (t == "LONG" && (TFA.dowTrend a == "bullish" || TFA.dowTrend a == "neutral"))
          || (t == "SHORT" && (TFA.dowTrend a == "bearish" || TFA.dowTrend a == "neutral")))
    ["4h", "8h"]
  simp only [List.length_cons, List.length_nil] at h1 h2
  dsimp only
  repeat' split
  all_goals omega

theorem score_wyckoff_pattern_le (analyses : TFMap) (t : String) :
    score_wyckoff_pattern analyses t ≤ 15 := by
  unfold score_wyckoff_pattern
  repeat' split
  all_goals omega

theorem score_indicators_le (analyses : TFMap) (t : String) :
    score_indicators analyses t ≤ 20 := by
  unfold score_indicators
  dsimp only
  repeat' split
  all_goals omega

theorem score_volume_le (analyses : TFMap) (t : String) :
    score_volume analyses t ≤ 10 := by
  unfold score_volume
  repeat' split
  all_goals omega

theorem score_dominance_le (doc : AnalysisDoc) (t : String) (b : Bool) :
    score_dominance doc t b ≤ 15 := by
  unfold score_dominance
  dsimp only
  repeat' split
  all_goals omega

theorem total_score_le (doc : AnalysisDoc) (sa : TFMap) (t : String) (b : Bool) :
    total_score doc sa t b ≤ 100 := by
  unfold total_score
  have h1 := score_multi_timeframe_trend_le sa t
  have h2 := score_wyckoff_pattern_le sa t
  have h3 := score_indicators_le sa t
  have h4 := score_volume_le sa t
  have h5 := score_dominance_le doc t b
  unfold score_safety_checks
  omega

/-! ## Helper lemma: characterization of a successful direction try -/

theorem try_direction_eq_some {symbol : String} {doc : AnalysisDoc} {sa : TFMap}
    {dir : String} {s : Signal}
    (h : try_direction symbol doc sa dir = Except.ok (some s)) :
    s.type = dir ∧ s.asset = symbol
      ∧ s.score = total_score doc sa dir (symbol == "BTCUSDT")
      ∧ 60 ≤ s.score ∧ s.score ≤ 100
      ∧ (s.confidence = "HIGH" ↔ 75 ≤ s.score)
      ∧ (s.confidence = "MEDIUM" ↔ s.score < 75)
      ∧ check_guardrails doc dir (symbol == "BTCUSDT") = true := by
  unfold try_direction at h
  dsimp only at h
  by_cases hg : check_guardrails doc dir (symbol == "BTCUSDT") = false
  · rw [if_pos hg] at h
    exact absurd h (by simp)
  · rw [if_neg hg] at h
    by_cases hts : total_score doc sa dir (symbol == "BTCUSDT") < 60
    · rw [if_pos hts] at h
      exact absurd h (by simp)
    · rw [if_neg hts] at h
      cases hconf : confidence_for (total_score doc sa dir (symbol == "BTCUSDT")) with
      | none =>
        rw [hconf] at h
        exact absurd h (by simp)
      | some confidence =>
        rw [hconf] at h
        cases hcp : current_price_of sa with
        | none =>
          rw [hcp] at h
          exact absurd h (by simp)
        | some p =>
          rw [hcp] at h
          simp only [Except.ok.injEq, Option.some.injEq] at h
          subst h
          have hle := total_score_le doc sa dir (symbol == "BTCUSDT")
          have hguard : check_guardrails doc dir (symbol == "BTCUSDT") = true := by
            cases hcb : check_guardrails doc dir (symbol == "BTCUSDT")
            · exact absurd hcb hg
            · rfl
          have hconf' :
              (75 ≤ total_score doc sa dir (symbol == "BTCUSDT") ∧ confidence = "HIGH")
                ∨ (total_score doc sa dir (symbol == "BTCUSDT") < 75 ∧ confidence = "MEDIUM") := by
            unfold confidence_for at hconf
            by_cases h75 : 75 ≤ total_score doc sa dir (symbol == "BTCUSDT")
            · left
              rw [if_pos h75] at hconf
              exact ⟨h75, (Option.some.inj hconf).symm⟩
            · right
              rw [if_neg h75, if_pos (by omega)] at hconf
              exact ⟨by omega, (Option.some.inj hconf).symm⟩
          refine ⟨rfl, rfl, rfl, ?_, hle, ?_, ?_, hguard⟩
          · show 60 ≤ total_score doc sa dir (symbol == "BTCUSDT")
            omega
          · show confidence = "HIGH" ↔ 75 ≤ total_score doc sa dir (symbol == "BTCUSDT")
            rcases hconf' with ⟨h75, hc⟩ | ⟨h75, hc⟩ <;> subst hc
            · exact ⟨fun _ => h75, fun _ => rfl⟩
            · exact ⟨fun hx => absurd hx (by decide), fun hx => absurd hx (by omega)⟩
          · show confidence = "MEDIUM" ↔ total_score doc sa dir (symbol == "BTCUSDT") < 75
            rcases hconf' with ⟨h75, hc⟩ | ⟨h75, hc⟩ <;> subst hc
            · exact ⟨fun hx => absurd hx (by decide), fun hx => absurd hx (by omega)⟩
            · exact ⟨fun _ => h75, fun _ => rfl⟩

/-! ## Helper lemmas: direction loop structure -/

theorem score_multi_timeframe_trend_nil (dir : String) :
    score_multi_timeframe_trend [] dir = 0 := by
  unfold score_multi_timeframe_trend lookupA
  simp

theorem score_wyckoff_pattern_nil (dir : String) :
    score_wyckoff_pattern [] dir = 0 := by
  unfold score_wyckoff_pattern lookupA
  simp

theorem score_indicators_nil (dir : String) :
    score_indicators [] dir = 0 := by
  unfold score_indicators lookupA
  simp

theorem score_volume_nil (dir : String) :
    score_volume [] dir = 0 := by
  unfold score_volume lookupA
  simp

theorem try_direction_nil (symbol : String) (doc : AnalysisDoc) (dir : String) :
    try_direction symbol doc [] dir = Except.ok none := by
  unfold try_direction
  dsimp only
  by_cases hg : check_guardrails doc dir (symbol == "BTCUSDT") = false
  · rw [if_pos hg]
  · rw [if_neg hg, if_pos ?hlt]
    case hlt =>
      have hd := score_dominance_le doc dir (symbol == "BTCUSDT")
      have h1 := score_multi_timeframe_trend_nil dir
      have h2 := score_wyckoff_pattern_nil dir
      have h3 := score_indicators_nil dir
      have h4 := score_volume_nil dir
      unfold total_score score_safety_checks
      omega

theorem generate_signal_eq_some {symbol : String} {doc : AnalysisDoc} {s : Signal}
    (h : generate_signal symbol doc = Except.ok (some s)) :
    try_direction symbol doc (saOf symbol doc) "LONG" = Except.ok (some s)
      ∨ (try_direction symbol doc (saOf symbol doc) "LONG" = Except.ok none
          ∧ try_direction symbol doc (saOf symbol doc) "SHORT" = Except.ok (some s)) := by
  unfold generate_signal at h
  dsimp only at h
  by_cases he : (saOf symbol doc).isEmpty = true
  · rw [if_pos he] at h
    exact absurd h (by simp)
  · rw [if_neg he] at h
    cases htl : try_direction symbol doc (saOf symbol doc) "LONG" with
    | error e =>
      rw [htl] at h
      exact absurd h (by simp)
    | ok o =>
      rw [htl] at h
      cases o with
      | some s2 =>
        simp only [Except.ok.injEq, Option.some.injEq] at h
        subst h
        exact Or.inl rfl
      | none =>
        exact Or.inr ⟨rfl, h⟩

theorem check_guardrails_long_true {doc : AnalysisDoc} {b : Bool}
    (h : check_guardrails doc "LONG" b = true) :
    strContains (usdtDomInterp doc) "rising_risk_off" = false
      ∧ (b = false → strContains (btcDomInterp doc) "rising_money_into_btc" = false) := by
  unfold check_guardrails at h
  constructor
  · by_cases hc : strContains (usdtDomInterp doc) "rising_risk_off" = true
    · rw [if_pos ⟨rfl, hc⟩] at h
      exact absurd h (by decide)
    · exact Bool.not_eq_true _ ▸ hc
  · intro hb
    by_cases hc : strContains (btcDomInterp doc) "rising_money_into_btc" = true
    · by_cases hc1 : strContains (usdtDomInterp doc) "rising_risk_off" = true
      · rw [if_pos ⟨rfl, hc1⟩] at h
        exact absurd h (by decide)
      · rw [if_neg (fun hand => hc1 hand.2), if_pos ⟨rfl, hb, hc⟩] at h
        exact absurd h (by decide)
    · exact Bool.not_eq_true _ ▸ hc

/-! ## Helper lemmas: evaluation of the scenario-1 document -/

theorem try_direction_docS1 :
    try_direction "BTCUSDT" docS1 (saOf "BTCUSDT" docS1) "LONG"
      = Except.ok (some sigS1) := by
  simp [try_direction, saOf, total_score, score_multi_timeframe_trend,
    score_wyckoff_pattern, score_indicators, score_volume, score_dominance,
    score_safety_checks, check_guardrails, confidence_for, current_price_of,
    build_signal, docS1, tfa4hS1, tfa1hS1, tfaTrend, sigS1, lookupA, strContains,
    btcDomInterp, usdtDomInterp, charsContain, charsStartWith, qTruthy,
    TFA.dowTrend, TFA.dowBosUp, TFA.dowBosDown, TFA.wyPhase, TFA.wySos, TFA.wySow,
    TFA.wySpring, TFA.wyUpthrust, TFA.indRsi, TFA.indHistogram, TFA.indEma20,
    TFA.indEma50, TFA.indVolumeSpike]
  norm_num

theorem generate_signal_docS1 :
    generate_signal "BTCUSDT" docS1 = Except.ok (some sigS1) := by
  unfold generate_signal
  dsimp only
  rw [if_neg (by decide), try_direction_docS1]

/-! ## Helper lemmas: Wyckoff phase branches -/

theorem analyze_wyckoff_phase_eq (df : List Candle) (h : ¬df.length < 50) :
    (analyze_wyckoff df).map WyckoffResult.phase = some (wyPhaseOf df) := by
  unfold analyze_wyckoff
  rw [if_neg h]
  rfl

theorem wyPhaseOf_markup (df : List Candle)
    (hpp : wyPricePosition df > 0.3) (hma : wyShortMA df > wyLongMA df)
    (hvr : wyVolumeRatio df > 1.1) :
    wyPhaseOf df = some "MARKUP" := by
  unfold wyPhaseOf
  dsimp only
  rw [if_neg fun hx => absurd hx.1 (by linarith), if_pos ⟨hpp, hma, hvr⟩]

theorem wyPhaseOf_at_03 (df : List Candle)
    (hpp : wyPricePosition df = 0.3) (hma : wyShortMA df > wyLongMA df)
    (_hvr : wyVolumeRatio df > 1.1) :
    wyPhaseOf df = none := by
  unfold wyPhaseOf
  dsimp only
  rw [if_neg fun hx => absurd hx.1 (by rw [hpp]; norm_num),
    if_neg fun hx => absurd hx.1 (by rw [hpp]; norm_num),
    if_neg fun hx => absurd hx.1 (by rw [hpp]; norm_num),
    if_neg fun hx => absurd hx.2.1 (by linarith)]

theorem wyPhaseOf_markdown (df : List Candle)
    (hpp1 : 0.3 ≤ wyPricePosition df) (hpp2 : wyPricePosition df < 0.7)
    (hma : wyShortMA df < wyLongMA df) (hvr : wyVolumeRatio df > 1.1) :
    wyPhaseOf df = some "MARKDOWN" := by
  unfold wyPhaseOf
  dsimp only
  rw [if_neg fun hx => absurd hx.1 (by linarith),
    if_neg fun hx => absurd hx.2.1 (by linarith),
    if_neg fun hx => absurd hx.2 (by linarith),
    if_pos ⟨hpp2, hma, hvr⟩]

theorem wyPhaseOf_at_07 (df : List Candle)
    (hpp : wyPricePosition df = 0.7) (hma : wyShortMA df < wyLongMA df)
    (_hvr : wyVolumeRatio df > 1.1) :
    wyPhaseOf df = none := by
  unfold wyPhaseOf
  dsimp only
  rw [if_neg fun hx => absurd hx.1 (by rw [hpp]; norm_num),
    if_neg fun hx => absurd hx.2.1 (by linarith),
    if_neg fun hx => absurd hx.2 (by linarith),
    if_neg fun hx => absurd hx.1 (by rw [hpp]; norm_num)]

/-! ## Helper lemmas: evaluation of the concrete candle series -/

theorem dfBoundary03_pp : wyPricePosition dfBoundary03 = 3/10 := by
  have hh : qMax (lastN 20 (dfBoundary03.map Candle.high)) = 10 := by decide
  have hl : qMin (lastN 20 (dfBoundary03.map Candle.low)) = 0 := by decide
  have hc : backIdx (dfBoundary03.map Candle.close) 1 = 3 := by decide
  unfold wyPricePosition
  rw [hh, hl, hc]
  norm_num

theorem dfBoundary03_vr : wyVolumeRatio dfBoundary03 = 8/5 := by
  have h5 : lastN 5 (dfBoundary03.map Candle.volume) = [20, 20, 20, 20, 20] := by decide
  have h20 : lastN 20 (dfBoundary03.map Candle.volume)
      = [10, 10, 10, 10, 10, 10, 10, 10, 10, 10, 10, 10, 10, 10, 10, 20, 20, 20, 20, 20] := by
    decide
  unfold wyVolumeRatio
  rw [h5, h20]
  norm_num [qMean, List.sum_cons, List.sum_nil]

theorem dfBoundary03_sma : wyShortMA dfBoundary03 = 3 := by
  have h : lastN 10 (dfBoundary03.map Candle.close) = [3, 3, 3, 3, 3, 3, 3, 3, 3, 3] := by
    decide
  unfold wyShortMA
  rw [h]
  norm_num [qMean, List.sum_cons, List.sum_nil]

theorem dfBoundary03_lma : wyLongMA dfBoundary03 = 5/3 := by
  have h : lastN 30 (dfBoundary03.map Candle.close)
      = [1, 1, 1, 1, 1, 1, 1, 1, 1, 1, 1, 1, 1, 1, 1, 1, 1, 1, 1, 1,
         3, 3, 3, 3, 3, 3, 3, 3, 3, 3] := by decide
  unfold wyLongMA
  rw [h]
  norm_num [qMean, List.sum_cons, List.sum_nil]

theorem dfBoundary07_pp : wyPricePosition dfBoundary07 = 7/10 := by
  have hh : qMax (lastN 20 (dfBoundary07.map Candle.high)) = 10 := by decide
  have hl : qMin (lastN 20 (dfBoundary07.map Candle.low)) = 0 := by decide
  have hc : backIdx (dfBoundary07.map Candle.close) 1 = 7 := by decide
  unfold wyPricePosition
  rw [hh, hl, hc]
  norm_num

theorem dfBoundary07_vr : wyVolumeRatio dfBoundary07 = 8/5 := by
  have h5 : lastN 5 (dfBoundary07.map Candle.volume) = [20, 20, 20, 20, 20] := by decide
  have h20 : lastN 20 (dfBoundary07.map Candle.volume)
      = [10, 10, 10, 10, 10, 10, 10, 10, 10, 10, 10, 10, 10, 10, 10, 20, 20, 20, 20, 20] := by
    decide
  unfold wyVolumeRatio
  rw [h5, h20]
  norm_num [qMean, List.sum_cons, List.sum_nil]

theorem dfBoundary07_sma : wyShortMA dfBoundary07 = 7 := by
  have h : lastN 10 (dfBoundary07.map Candle.close) = [7, 7, 7, 7, 7, 7, 7, 7, 7, 7] := by
    decide
  unfold wyShortMA
  rw [h]
  norm_num [qMean, List.sum_cons, List.sum_nil]

theorem dfBoundary07_lma : wyLongMA dfBoundary07 = 23/3 := by
  have h : lastN 30 (dfBoundary07.map Candle.close)
      = [9, 9, 9, 9, 9, 9, 9, 9, 9, 9,
         7, 7, 7, 7, 7, 7, 7, 7, 7, 7, 7, 7, 7, 7, 7, 7, 7, 7, 7, 7] := by decide
  unfold wyLongMA
  rw [h]
  norm_num [qMean, List.sum_cons, List.sum_nil]

theorem dfMarkdown05_pp : wyPricePosition dfMarkdown05 = 1/2 := by
  have hh : qMax (lastN 20 (dfMarkdown05.map Candle.high)) = 10 := by decide
  have hl : qMin (lastN 20 (dfMarkdown05.map Candle.low)) = 0 := by decide
  have hc : backIdx (dfMarkdown05.map Candle.close) 1 = 5 := by decide
  unfold wyPricePosition
  rw [hh, hl, hc]
  norm_num

theorem dfMarkdown05_vr : wyVolumeRatio dfMarkdown05 = 8/5 := by
  have h5 : lastN 5 (dfMarkdown05.map Candle.volume) = [20, 20, 20, 20, 20] := by decide
  have h20 : lastN 20 (dfMarkdown05.map Candle.volume)
      = [10, 10, 10, 10, 10, 10, 10, 10, 10, 10, 10, 10, 10, 10, 10, 20, 20, 20, 20, 20] := by
    decide
  unfold wyVolumeRatio
  rw [h5, h20]
  norm_num [qMean, List.sum_cons, List.sum_nil]

theorem dfMarkdown05_sma : wyShortMA dfMarkdown05 = 5 := by
  have h : lastN 10 (dfMarkdown05.map Candle.close) = [5, 5, 5, 5, 5, 5, 5, 5, 5, 5] := by
    decide
  unfold wyShortMA
  rw [h]
  norm_num [qMean, List.sum_cons, List.sum_nil]

theorem dfMarkdown05_lma : wyLongMA dfMarkdown05 = 19/3 := by
  have h : lastN 30 (dfMarkdown05.map Candle.close)
      = [9, 9, 9, 9, 9, 9, 9, 9, 9, 9,
         5, 5, 5, 5, 5, 5, 5, 5, 5, 5, 5, 5, 5, 5, 5, 5, 5, 5, 5, 5] := by decide
  unfold wyLongMA
  rw [h]
  norm_num [qMean, List.sum_cons, List.sum_nil]

theorem dfMarkup04_pp : wyPricePosition dfMarkup04 = 2/5 := by
  have hh : qMax (lastN 20 (dfMarkup04.map Candle.high)) = 10 := by decide
  have hl : qMin (lastN 20 (dfMarkup04.map Candle.low)) = 0 := by decide
  have hc : backIdx (dfMarkup04.map Candle.close) 1 = 4 := by decide
  unfold wyPricePosition
  rw [hh, hl, hc]
  norm_num

theorem dfMarkup04_vr : wyVolumeRatio dfMarkup04 = 8/5 := by
  have h5 : lastN 5 (dfMarkup04.map Candle.volume) = [20, 20, 20, 20, 20] := by decide
  have h20 : lastN 20 (dfMarkup04.map Candle.volume)
      = [10, 10, 10, 10, 10, 10, 10, 10, 10, 10, 10, 10, 10, 10, 10, 20, 20, 20, 20, 20] := by
    decide
  unfold wyVolumeRatio
  rw [h5, h20]
  norm_num [qMean, List.sum_cons, List.sum_nil]

theorem dfMarkup04_sma : wyShortMA dfMarkup04 = 4 := by
  have h : lastN 10 (dfMarkup04.map Candle.close) = [4, 4, 4, 4, 4, 4, 4, 4, 4, 4] := by
    decide
  unfold wyShortMA
  rw [h]
  norm_num [qMean, List.sum_cons, List.sum_nil]

theorem dfMarkup04_lma : wyLongMA dfMarkup04 = 2 := by
  have h : lastN 30 (dfMarkup04.map Candle.close)
      = [1, 1, 1, 1, 1, 1, 1, 1, 1, 1, 1, 1, 1, 1, 1, 1, 1, 1, 1, 1,
         4, 4, 4, 4, 4, 4, 4, 4, 4, 4] := by decide
  unfold wyLongMA
  rw [h]
  norm_num [qMean, List.sum_cons, List.sum_nil]

/-! ## Helper lemmas: circuit-breaker failure accumulation -/

theorem call_closed_failure (cb : CircuitBreaker) (t : ℚ)
    (hst : cb.state = CircuitState.CLOSED) :
    CircuitBreaker.call cb t true = (CallResult.failed, cb.on_failure t) := by
  unfold CircuitBreaker.call
  rw [hst]
  rfl

theorem on_failure_in_window (cb : CircuitBreaker) (t : ℚ)
    (hst : cb.state = CircuitState.CLOSED)
    (hw : match cb.last_failure_time with
          | none => True
          | some t0 => t - t0 ≤ cb.failure_window) :
    cb.on_failure t =
      if cb.failure_threshold ≤ cb.failure_count + 1 then
        { cb with failure_count := cb.failure_count + 1
                  last_failure_time := some t
                  state := CircuitState.OPEN
                  next_attempt_time := some (t + cb.recovery_timeout) }
      else
        { cb with failure_count := cb.failure_count + 1
                  last_failure_time := some t } := by
  cases hlf : cb.last_failure_time with
  | none =>
    unfold CircuitBreaker.on_failure
    rw [hlf, hst]
    by_cases hth : cb.failure_threshold ≤ cb.failure_count + 1 <;>
      simp [hth]
  | some t0 =>
    rw [hlf] at hw
    have hd : decide (t - t0 > cb.failure_window) = false := by
      simp only [decide_eq_false_iff_not]
      exact not_lt.mpr hw
    unfold CircuitBreaker.on_failure
    rw [hlf, hst]
    by_cases hth : cb.failure_threshold ≤ cb.failure_count + 1 <;>
      simp [hth, hd]

theorem runCalls_failures_trip : ∀ (ts : List ℚ) (cb : CircuitBreaker),
    cb.state = CircuitState.CLOSED →
    cb.failure_count + ts.length = cb.failure_threshold →
    ts ≠ [] →
    gapsOk cb.failure_window cb.last_failure_time ts = true →
    (runCalls cb (ts.map fun t => (t, true))).state = CircuitState.OPEN
      ∧ (runCalls cb (ts.map fun t => (t, true))).next_attempt_time
          = some (ts.getLastD 0 + cb.recovery_timeout) := by
  intro ts
  induction ts with
  | nil => exact fun cb _ _ hne _ => absurd rfl hne
  | cons t rest ih =>
    intro cb hst hcount hne hgaps
    have hw : match cb.last_failure_time with
        | none => True
        | some t0 => t - t0 ≤ cb.failure_window := by
      cases hlf : cb.last_failure_time with
      | none => trivial
      | some t0 =>
        rw [hlf] at hgaps
        unfold gapsOk at hgaps
        have := (Bool.and_eq_true _ _).mp hgaps
        exact of_decide_eq_true this.1
    have hgaps' : gapsOk cb.failure_window (some t) rest = true := by
      cases hlf : cb.last_failure_time with
      | none => rw [hlf] at hgaps; exact hgaps
      | some t0 =>
        rw [hlf] at hgaps
        unfold gapsOk at hgaps
        exact ((Bool.and_eq_true _ _).mp hgaps).2
    have hstep : runCalls cb ((t :: rest).map fun t => (t, true))
        = runCalls (cb.on_failure t) (rest.map fun t => (t, true)) := by
      unfold runCalls
      rw [List.map_cons, List.foldl_cons, call_closed_failure cb t hst]
    rw [hstep, on_failure_in_window cb t hst hw]
    by_cases hrest : rest = []
    · subst hrest
      have hth : cb.failure_threshold ≤ cb.failure_count + 1 := by
        simp only [List.length_cons, List.length_nil] at hcount
        omega
      rw [if_pos hth]
      exact ⟨rfl, rfl⟩
    · have hth : ¬cb.failure_threshold ≤ cb.failure_count + 1 := by
        have hpos : 0 < rest.length := List.length_pos.mpr hrest
        simp only [List.length_cons] at hcount
        omega
      rw [if_neg hth]
      have hgl : (t :: rest).getLastD 0 = rest.getLastD 0 := by
        cases rest with
        | nil => exact absurd rfl hrest
        | cons a l => simp [List.getLastD_cons]
      rw [hgl]
      exact ih _ hst (by simp only [List.length_cons] at hcount ⊢; omega) hrest hgaps'

/-! ## Helper lemma: failed price fetches are absent from the snapshot -/

theorem fetch_prices_lookup_none (env : CycleEnv) (c : String)
    (hc : env.price_result c = none) :
    lookupA (fetch_and_store_all env).snapshot.prices c = none := by
  have key : ∀ l : List String,
      lookupA (l.filterMap fun symbol =>
        match env.price_result symbol with
        | some p => if p ≠ 0 then some (symbol, p) else none
        | none => none) c = none := by
    intro l
    induction l with
    | nil => rfl
    | cons a l ih =>
      rw [List.filterMap_cons]
      cases hpa : env.price_result a with
      | none => exact ih
      | some p =>
        dsimp only
        by_cases hp : p = 0
        · rw [if_neg (by simp [hp])]
          exact ih
        · rw [if_pos hp]
          have hac : (a == c) = false := by
            simp only [beq_eq_false_iff_ne, ne_eq]
            intro hec
            rw [hec, hc] at hpa
            cases hpa
          unfold lookupA at ih ⊢
          rw [List.find?_cons, hac]
          exact ih
  unfold fetch_and_store_all
  dsimp only
  split_ifs <;> exact key env.coins

/-! ## Claim theorems -/

/-- C1: every signal `generate_signal` returns has `60 ≤ score ≤ 100`, with
confidence HIGH exactly when `score ≥ 75` and MEDIUM exactly when
`60 ≤ score < 75`; and a direction whose total score is below 60 yields no
signal object for that direction. -/
theorem signal_score_confidence_invariant (symbol : String) (doc : AnalysisDoc)
    (dir : String) (s : Signal) :
    (generate_signal symbol doc = Except.ok (some s) →
      60 ≤ s.score ∧ s.score ≤ 100
        ∧ (s.confidence = "HIGH" ↔ 75 ≤ s.score)
        ∧ (s.confidence = "MEDIUM" ↔ (60 ≤ s.score ∧ s.score < 75)))
    ∧ (total_score doc (saOf symbol doc) dir (symbol == "BTCUSDT") < 60 →
        try_direction symbol doc (saOf symbol doc) dir = Except.ok none) := by
  constructor
  · intro h
    rcases generate_signal_eq_some h with htl | ⟨-, htl⟩ <;>
    · obtain ⟨-, -, -, h60, h100, hH, hM, -⟩ := try_direction_eq_some htl
      exact ⟨h60, h100, hH, ⟨fun hc => ⟨h60, hM.mp hc⟩, fun hc => hM.mpr hc.2⟩⟩
  · intro hlt
    unfold try_direction
    dsimp only
    by_cases hg : check_guardrails doc dir (symbol == "BTCUSDT") = false
    · rw [if_pos hg]
    · rw [if_neg hg, if_pos hlt]

/-- Witness for C1 on the scenario-1 document: its LONG signal satisfies
the invariants, and its SHORT direction (scoring 25) yields nothing. -/
theorem signal_score_confidence_invariant_witness :
    (60 ≤ sigS1.score ∧ sigS1.score ≤ 100
        ∧ (sigS1.confidence = "HIGH" ↔ 75 ≤ sigS1.score)
        ∧ (sigS1.confidence = "MEDIUM" ↔ (60 ≤ sigS1.score ∧ sigS1.score < 75)))
      ∧ try_direction "BTCUSDT" docS1 (saOf "BTCUSDT" docS1) "SHORT" = Except.ok none :=
  ⟨(signal_score_confidence_invariant "BTCUSDT" docS1 "SHORT" sigS1).1 generate_signal_docS1,
   (signal_score_confidence_invariant "BTCUSDT" docS1 "SHORT" sigS1).2 (by decide)⟩

/-- C2: a LONG signal is never returned when the USDT-dominance
interpretation is `rising_risk_off_shorts_favored`, nor (for non-BTC
symbols) when the BTC-dominance interpretation is
`rising_money_into_btc_alts_weaken`; a failed guardrail skips the direction
before any scoring. -/
theorem long_signal_guardrails (symbol : String) (doc : AnalysisDoc) (s : Signal) :
    (generate_signal symbol doc = Except.ok (some s) → s.type = "LONG" →
      usdtDomInterp doc ≠ "rising_risk_off_shorts_favored"
        ∧ (symbol ≠ "BTCUSDT" → btcDomInterp doc ≠ "rising_money_into_btc_alts_weaken"))
    ∧ (∀ dir : String, check_guardrails doc dir (symbol == "BTCUSDT") = false →
        try_direction symbol doc (saOf symbol doc) dir = Except.ok none) := by
  constructor
  · intro h htype
    have hlong : try_direction symbol doc (saOf symbol doc) "LONG" = Except.ok (some s) := by
      rcases generate_signal_eq_some h with htl | ⟨-, hts⟩
      · exact htl
      · have hty := (try_direction_eq_some hts).1
        rw [htype] at hty
        exact absurd hty (by decide)
    have hguard := (try_direction_eq_some hlong).2.2.2.2.2.2.2
    obtain ⟨husdt, hbtc⟩ := check_guardrails_long_true hguard
    constructor
    · intro heq
      rw [heq] at husdt
      exact absurd husdt (by decide)
    · intro hne heq
      have hb : (symbol == "BTCUSDT") = false := by
        simp only [beq_eq_false_iff_ne, ne_eq]
        exact hne
      have hfa := hbtc hb
      rw [heq] at hfa
      exact absurd hfa (by decide)
  · intro dir hg
    unfold try_direction
    dsimp only
    rw [if_pos hg]

/-- Witness for C2: the scenario-1 LONG signal's document has neither
blocking interpretation; a risk-off document makes the LONG try of an
altcoin return nothing. -/
theorem long_signal_guardrails_witness :
    (usdtDomInterp docS1 ≠ "rising_risk_off_shorts_favored"
        ∧ ("BTCUSDT" ≠ "BTCUSDT" → btcDomInterp docS1 ≠ "rising_money_into_btc_alts_weaken"))
      ∧ try_direction "SOLUSDT" docRiskOff (saOf "SOLUSDT" docRiskOff) "LONG"
          = Except.ok none :=
  ⟨(long_signal_guardrails "BTCUSDT" docS1 sigS1).1 generate_signal_docS1 rfl,
   (long_signal_guardrails "SOLUSDT" docRiskOff sigS1).2 "LONG" (by decide)⟩

/-- C3 counterexample: on the spec's LONG-BTC-HIGH scenario document the
code produces a score of 95, not the 92 the scenario table predicts — the
code awards RSI 58 the full 7 indicator points (58 > 55), not 4, so the
indicator bucket scores 20, not 17. -/
theorem scenario1_score_not_92 :
    generate_signal "BTCUSDT" docS1 = Except.ok (some sigS1)
      ∧ sigS1.score = 95 ∧ sigS1.score ≠ 92
      ∧ score_indicators (saOf "BTCUSDT" docS1) "LONG" = 20 :=
  ⟨generate_signal_docS1, rfl, by decide, by decide⟩

/-- C3 amended: the LONG-BTC-HIGH scenario yields a LONG signal with score
95 (RSI 58 contributing 7 of the 20 indicator points), confidence HIGH,
take-profit ladder [1.02, 1.05]·price and stop-loss 0.98·price. -/
theorem scenario1_long_btc_high :
    generate_signal "BTCUSDT" docS1 = Except.ok (some sigS1)
      ∧ sigS1.type = "LONG" ∧ sigS1.score = 95 ∧ sigS1.confidence = "HIGH"
      ∧ score_indicators (saOf "BTCUSDT" docS1) "LONG" = 20
      ∧ current_price_of (saOf "BTCUSDT" docS1) = some 110
      ∧ sigS1.take_profit = [110 * 1.02, 110 * 1.05]
      ∧ sigS1.stop_loss = 110 * 0.98 := by
  refine ⟨generate_signal_docS1, rfl, rfl, rfl, by decide, by decide, ?_, ?_⟩
  · norm_num [sigS1]
  · norm_num [sigS1]

/-- C4 counterexample: for an altcoin LONG with a neutral BTC-dominance
interpretation and stable-or-falling USDT dominance, `score_dominance`
returns 0, not the 5 the claim predicts — the +5 USDT bonus is not
independent. -/
theorem alt_long_neutral_dominance_zero :
    score_dominance docAltNeutral "LONG" false = 0
      ∧ strContains (usdtDomInterp docAltNeutral) "stable_or_falling" = true
      ∧ btcDomInterp docAltNeutral = "neutral"
      ∧ score_dominance docAltNeutral "LONG" false ≠ 5 := by
  decide

/-- C4 amended: for an altcoin LONG candidate the dominance bucket awards
10 (+5 when USDT dominance is stable or falling) when the BTC-dominance
interpretation contains `falling_good_for_alts`, and 0 otherwise — in
particular the +5 USDT bonus is granted only behind the BTC.D check, and
a neutral BTC.D (which passes the guardrail) still zeroes the bucket. -/
theorem alt_long_dominance_characterization (doc : AnalysisDoc) :
    (strContains (btcDomInterp doc) "falling_good_for_alts" = true →
      score_dominance doc "LONG" false
        = 10 + (if strContains (usdtDomInterp doc) "stable_or_falling" = true then 5 else 0))
    ∧ (strContains (btcDomInterp doc) "falling_good_for_alts" = false →
      score_dominance doc "LONG" false = 0) := by
  unfold score_dominance
  dsimp only
  constructor
  · intro hb
    rw [if_neg (by decide), if_pos rfl, if_pos hb]
  · intro hb
    rw [if_neg (by decide), if_pos rfl, if_neg (by simp [hb])]

/-- Witness for C4 amended: the scenario-1 document (falling BTC.D) gets
the full bucket; the neutral-BTC.D document gets 0. -/
theorem alt_long_dominance_characterization_witness :
    score_dominance docS1 "LONG" false
        = 10 + (if strContains (usdtDomInterp docS1) "stable_or_falling" = true then 5 else 0)
      ∧ score_dominance docAltNeutral "LONG" false = 0 :=
  ⟨(alt_long_dominance_characterization docS1).1 (by decide),
   (alt_long_dominance_characterization docAltNeutral).2 (by decide)⟩

/-- C5: the circuit-breaker state machine — (1) from CLOSED,
`failure_threshold` consecutive failures within the failure window trip the
breaker to OPEN with the recovery timer set from the last failure; (2)
while OPEN and before `next_attempt_time`, every call is rejected
immediately and unchanged (the wrapped function is not invoked: the result
is the same whether it would fail or succeed); (3) once the recovery
timeout has elapsed the breaker permits one trial call — success returns
it to CLOSED with the failure count reset, failure returns it to OPEN with
the timer reset; (4) no call ever leaves the breaker parked in HALF_OPEN. -/
theorem circuit_breaker_protocol :
    (∀ (ts : List ℚ) (cb : CircuitBreaker),
      cb.state = CircuitState.CLOSED →
      cb.failure_count + ts.length = cb.failure_threshold →
      ts ≠ [] →
      gapsOk cb.failure_window cb.last_failure_time ts = true →
      (runCalls cb (ts.map fun t => (t, true))).state = CircuitState.OPEN
        ∧ (runCalls cb (ts.map fun t => (t, true))).next_attempt_time
            = some (ts.getLastD 0 + cb.recovery_timeout))
    ∧ (∀ (cb : CircuitBreaker) (now T : ℚ) (f : Bool),
      cb.state = CircuitState.OPEN → cb.next_attempt_time = some T → now < T →
      CircuitBreaker.call cb now f = (CallResult.rejected, cb))
    ∧ (∀ (cb : CircuitBreaker) (now T : ℚ),
      cb.state = CircuitState.OPEN → cb.next_attempt_time = some T → T ≤ now →
      CircuitBreaker.call cb now false
          = (CallResult.succeeded,
             { cb with state := CircuitState.CLOSED, failure_count := 0 })
        ∧ (CircuitBreaker.call cb now true).snd.state = CircuitState.OPEN
        ∧ (CircuitBreaker.call cb now true).snd.next_attempt_time
            = some (now + cb.recovery_timeout))
    ∧ (∀ (cb : CircuitBreaker) (now : ℚ) (f : Bool),
      (CircuitBreaker.call cb now f).snd.state ≠ CircuitState.HALF_OPEN) := by
  refine ⟨runCalls_failures_trip, ?_, ?_, ?_⟩
  · intro cb now T f hst hT hlt
    unfold CircuitBreaker.call
    rw [hst, hT]
    dsimp only [Option.getD_some]
    rw [if_pos hlt]
  · intro cb now T hst hT hge
    unfold CircuitBreaker.call
    rw [hst, hT]
    dsimp only [Option.getD_some]
    rw [if_neg (not_lt.mpr hge)]
    refine ⟨rfl, ?_, ?_⟩ <;>
    · dsimp only
      unfold CircuitBreaker.on_failure
      rfl
  · intro cb now f
    unfold CircuitBreaker.call CircuitBreaker.on_failure CircuitBreaker.on_success
    cases hst : cb.state <;> cases f <;>
      (dsimp only; repeat' split) <;> simp_all

/-- Witness for C5: a threshold-1 breaker trips on one failure at t = 5;
the tripped breaker `cbOpenW` (timer 70) rejects at t = 30 unchanged,
recovers to CLOSED on a successful trial at t = 80, re-opens on a failed
trial, and never rests in HALF_OPEN. -/
theorem circuit_breaker_protocol_witness :
    ((runCalls (mkCircuitBreaker 1 60 60) ([(5 : ℚ)].map fun t => (t, true))).state
          = CircuitState.OPEN
        ∧ (runCalls (mkCircuitBreaker 1 60 60) ([(5 : ℚ)].map fun t => (t, true))).next_attempt_time
            = some ([(5 : ℚ)].getLastD 0 + (mkCircuitBreaker 1 60 60).recovery_timeout))
      ∧ CircuitBreaker.call cbOpenW 30 true = (CallResult.rejected, cbOpenW)
      ∧ (CircuitBreaker.call cbOpenW 80 false
            = (CallResult.succeeded,
               { cbOpenW with state := CircuitState.CLOSED, failure_count := 0 })
          ∧ (CircuitBreaker.call cbOpenW 80 true).snd.state = CircuitState.OPEN
          ∧ (CircuitBreaker.call cbOpenW 80 true).snd.next_attempt_time
              = some (80 + cbOpenW.recovery_timeout))
      ∧ (CircuitBreaker.call cbOpenW 0 false).snd.state ≠ CircuitState.HALF_OPEN :=
  ⟨circuit_breaker_protocol.1 [5] (mkCircuitBreaker 1 60 60) rfl rfl (by decide) rfl,
   circuit_breaker_protocol.2.1 cbOpenW 30 70 true rfl rfl (by decide),
   circuit_breaker_protocol.2.2.1 cbOpenW 80 70 rfl rfl (by decide),
   circuit_breaker_protocol.2.2.2 cbOpenW 0 false⟩

/-- C6 counterexample: a cycle in which every external fetch fails but the
database write succeeds still persists a snapshot with an empty price map
and still emits `market_data_updated` — the claimed "at least one price"
condition does not exist in the code. -/
theorem all_fetches_failed_cycle_still_emits :
    (fetch_and_store_all envAllFetchesFail).emitted = true
      ∧ (fetch_and_store_all envAllFetchesFail).snapshot.prices = []
      ∧ (fetch_and_store_all envAllFetchesFail).stored = true := by
  decide

/-- C6 amended: a cycle emits `market_data_updated` exactly when the
database write succeeds (independently of whether any price was obtained);
a failed write emits nothing; a symbol whose price fetch failed is absent
from the snapshot's price map. -/
theorem cycle_emits_iff_db_write (env : CycleEnv) :
    ((fetch_and_store_all env).emitted = true ↔ env.db_write_ok = true)
      ∧ (fetch_and_store_all env).stored = env.db_write_ok
      ∧ (env.db_write_ok = false → (fetch_and_store_all env).emitted = false)
      ∧ (∀ c, env.price_result c = none →
          lookupA (fetch_and_store_all env).snapshot.prices c = none) := by
  refine ⟨?_, ?_, ?_, fun c hc => fetch_prices_lookup_none env c hc⟩ <;>
  · unfold fetch_and_store_all
    dsimp only
    split_ifs with h <;> simp_all

/-- Witness for C6 amended: the failing-write cycle stores and emits
nothing; the all-fetches-failed cycle's snapshot has no BTC price. -/
theorem cycle_emits_iff_db_write_witness :
    ((fetch_and_store_all envDbFail).emitted = true ↔ envDbFail.db_write_ok = true)
      ∧ (fetch_and_store_all envDbFail).stored = envDbFail.db_write_ok
      ∧ (fetch_and_store_all envDbFail).emitted = false
      ∧ lookupA (fetch_and_store_all envAllFetchesFail).snapshot.prices "BTCUSDT" = none :=
  ⟨(cycle_emits_iff_db_write envDbFail).1,
   (cycle_emits_iff_db_write envDbFail).2.1,
   (cycle_emits_iff_db_write envDbFail).2.2.1 rfl,
   (cycle_emits_iff_db_write envAllFetchesFail).2.2.2 "BTCUSDT" rfl⟩

/-- C7 counterexample: a message whose `data` field is not valid JSON is
logged and left un-acked (the decode failure lands in the generic
`except Exception` block, which never acknowledges) — the claim's
"acked to prevent poison loops" is not what the code does. -/
theorem invalid_json_message_not_acked :
    (process_message false HandlerOutcome.returns).acked = false
      ∧ (process_message false HandlerOutcome.returns).logged_error = true
      ∧ ¬(process_message false HandlerOutcome.returns).acked = true := by
  decide

/-- C7 amended: a handler that returns leads to exactly one ack; a raising
handler (ServiceError or otherwise) is logged and not acked; a message
failing JSON decoding is logged and also NOT acked — it remains pending
like any other processing failure. -/
theorem consumer_ack_semantics (h : HandlerOutcome) :
    ((process_message true HandlerOutcome.returns).acked = true
        ∧ (process_message true HandlerOutcome.returns).handler_ran = true)
      ∧ (h ≠ HandlerOutcome.returns →
          (process_message true h).acked = false
            ∧ (process_message true h).handler_ran = true
            ∧ (process_message true h).logged_error = true)
      ∧ ((process_message false h).acked = false
          ∧ (process_message false h).handler_ran = false
          ∧ (process_message false h).logged_error = true) := by
  cases h with
  | returns => exact ⟨by decide, fun hne => absurd rfl hne, by decide⟩
  | raisesService => exact ⟨by decide, fun _ => by decide, by decide⟩
  | raisesOther => exact ⟨by decide, fun _ => by decide, by decide⟩

/-- Witness for C7 amended at a handler raising a non-service exception. -/
theorem consumer_ack_semantics_witness :
    ((process_message true HandlerOutcome.returns).acked = true
        ∧ (process_message true HandlerOutcome.returns).handler_ran = true)
      ∧ ((process_message true HandlerOutcome.raisesOther).acked = false
          ∧ (process_message true HandlerOutcome.raisesOther).handler_ran = true
          ∧ (process_message true HandlerOutcome.raisesOther).logged_error = true)
      ∧ ((process_message false HandlerOutcome.raisesOther).acked = false
          ∧ (process_message false HandlerOutcome.raisesOther).handler_ran = false
          ∧ (process_message false HandlerOutcome.raisesOther).logged_error = true) :=
  ⟨(consumer_ack_semantics HandlerOutcome.raisesOther).1,
   (consumer_ack_semantics HandlerOutcome.raisesOther).2.1 (by decide),
   (consumer_ack_semantics HandlerOutcome.raisesOther).2.2⟩

/-- C8 counterexample: at `price_position` exactly 0.3 with short MA above
long MA and volume ratio above 1.1 the phase is `None`, not MARKUP (the
code requires strictly more than 0.3); at exactly 0.7 with short MA below
long MA and volume ratio above 1.1 the phase is `None`, not MARKDOWN (the
code requires strictly less than 0.7). -/
theorem wyckoff_boundary_values_unclassified :
    (analyze_wyckoff dfBoundary03).map WyckoffResult.phase = some none
      ∧ wyPricePosition dfBoundary03 = 0.3
      ∧ wyShortMA dfBoundary03 > wyLongMA dfBoundary03
      ∧ wyVolumeRatio dfBoundary03 > 1.1
      ∧ (analyze_wyckoff dfBoundary07).map WyckoffResult.phase = some none
      ∧ wyPricePosition dfBoundary07 = 0.7
      ∧ wyShortMA dfBoundary07 < wyLongMA dfBoundary07
      ∧ wyVolumeRatio dfBoundary07 > 1.1 := by
  have hp3 : wyPricePosition dfBoundary03 = 0.3 := by rw [dfBoundary03_pp]; norm_num
  have hm3 : wyShortMA dfBoundary03 > wyLongMA dfBoundary03 := by
    rw [dfBoundary03_sma, dfBoundary03_lma]; norm_num
  have hv3 : wyVolumeRatio dfBoundary03 > 1.1 := by rw [dfBoundary03_vr]; norm_num
  have hp7 : wyPricePosition dfBoundary07 = 0.7 := by rw [dfBoundary07_pp]; norm_num
  have hm7 : wyShortMA dfBoundary07 < wyLongMA dfBoundary07 := by
    rw [dfBoundary07_sma, dfBoundary07_lma]; norm_num
  have hv7 : wyVolumeRatio dfBoundary07 > 1.1 := by rw [dfBoundary07_vr]; norm_num
  refine ⟨?_, hp3, hm3, hv3, ?_, hp7, hm7, hv7⟩
  · rw [analyze_wyckoff_phase_eq dfBoundary03 (by decide),
      wyPhaseOf_at_03 dfBoundary03 hp3 hm3 hv3]
  · rw [analyze_wyckoff_phase_eq dfBoundary07 (by decide),
      wyPhaseOf_at_07 dfBoundary07 hp7 hm7 hv7]

/-- C8 amended: for every series of at least 50 candles the MARKUP row
requires `price_position` strictly above 0.3 and the MARKDOWN row strictly
below 0.7; at exactly 0.3 (resp. 0.7) under the row's other conditions the
phase is `None`. -/
theorem wyckoff_phase_boundary_strict (df : List Candle) (hlen : 50 ≤ df.length) :
    (wyPricePosition df > 0.3 → wyShortMA df > wyLongMA df → wyVolumeRatio df > 1.1 →
      (analyze_wyckoff df).map WyckoffResult.phase = some (some "MARKUP"))
    ∧ (wyPricePosition df = 0.3 → wyShortMA df > wyLongMA df → wyVolumeRatio df > 1.1 →
      (analyze_wyckoff df).map WyckoffResult.phase = some none)
    ∧ (0.3 ≤ wyPricePosition df → wyPricePosition df < 0.7 →
        wyShortMA df < wyLongMA df → wyVolumeRatio df > 1.1 →
      (analyze_wyckoff df).map WyckoffResult.phase = some (some "MARKDOWN"))
    ∧ (wyPricePosition df = 0.7 → wyShortMA df < wyLongMA df → wyVolumeRatio df > 1.1 →
      (analyze_wyckoff df).map WyckoffResult.phase = some none) := by
  have h50 : ¬df.length < 50 := by omega
  refine ⟨fun h1 h2 h3 => ?_, fun h1 h2 h3 => ?_, fun h1 h2 h3 h4 => ?_, fun h1 h2 h3 => ?_⟩
  · rw [analyze_wyckoff_phase_eq df h50, wyPhaseOf_markup df h1 h2 h3]
  · rw [analyze_wyckoff_phase_eq df h50, wyPhaseOf_at_03 df h1 h2 h3]
  · rw [analyze_wyckoff_phase_eq df h50, wyPhaseOf_markdown df h1 h2 h3 h4]
  · rw [analyze_wyckoff_phase_eq df h50, wyPhaseOf_at_07 df h1 h2 h3]

/-- Witness for C8 amended: a series strictly inside the MARKUP region
(position 0.4) is MARKUP; the exact-0.3 series is unclassified; a series
strictly inside the MARKDOWN region (position 0.5) is MARKDOWN; the
exact-0.7 series is unclassified. -/
theorem wyckoff_phase_boundary_strict_witness :
    (analyze_wyckoff dfMarkup04).map WyckoffResult.phase = some (some "MARKUP")
      ∧ (analyze_wyckoff dfBoundary03).map WyckoffResult.phase = some none
      ∧ (analyze_wyckoff dfMarkdown05).map WyckoffResult.phase = some (some "MARKDOWN")
      ∧ (analyze_wyckoff dfBoundary07).map WyckoffResult.phase = some none :=
  ⟨(wyckoff_phase_boundary_strict dfMarkup04 (by decide)).1
      (by rw [dfMarkup04_pp]; norm_num)
      (by rw [dfMarkup04_sma, dfMarkup04_lma]; norm_num)
      (by rw [dfMarkup04_vr]; norm_num),
   (wyckoff_phase_boundary_strict dfBoundary03 (by decide)).2.1
      (by rw [dfBoundary03_pp]; norm_num)
      (by rw [dfBoundary03_sma, dfBoundary03_lma]; norm_num)
      (by rw [dfBoundary03_vr]; norm_num),
   (wyckoff_phase_boundary_strict dfMarkdown05 (by decide)).2.2.1
      (by rw [dfMarkdown05_pp]; norm_num)
      (by rw [dfMarkdown05_pp]; norm_num)
      (by rw [dfMarkdown05_sma, dfMarkdown05_lma]; norm_num)
      (by rw [dfMarkdown05_vr]; norm_num),
   (wyckoff_phase_boundary_strict dfBoundary07 (by decide)).2.2.2
      (by rw [dfBoundary07_pp]; norm_num)
      (by rw [dfBoundary07_sma, dfBoundary07_lma]; norm_num)
      (by rw [dfBoundary07_vr]; norm_num)⟩

/-- C9 (code bug): when the underlying HTTP fetch raises on a closed
breaker, the decorated `fetch_price` makes exactly ONE underlying attempt
and returns `None` — the catch-all `except Exception` inside the function
swallows the error before the tenacity wrapper can see it, so the
configured 3-attempt retry never happens (the wrapper itself would retry
3 times, as the last conjunct shows). -/
theorem fetch_price_single_attempt (cb : CircuitBreaker) (now : ℚ)
    (hst : cb.state = CircuitState.CLOSED) :
    (fetch_price cb now (Except.error ())).fst = 1
      ∧ (fetch_price cb now (Except.error ())).snd.fst = none
      ∧ (tenacityRetry 3 fun _ => (Except.error () : Except Unit ℚ)).fst = 3 := by
  have hbody : (fetch_price_body cb now (Except.error ())).fst = (1, none) := by
    unfold fetch_price_body CircuitBreaker.call
    rw [hst]
    rfl
  unfold fetch_price
  dsimp only
  rw [hbody]
  exact ⟨rfl, rfl, rfl⟩

/-- Witness for C9 on a fresh breaker at t = 0. -/
theorem fetch_price_single_attempt_witness :
    (fetch_price (mkCircuitBreaker 5 60 60) 0 (Except.error ())).fst = 1
      ∧ (fetch_price (mkCircuitBreaker 5 60 60) 0 (Except.error ())).snd.fst = none
      ∧ (tenacityRetry 3 fun _ => (Except.error () : Except Unit ℚ)).fst = 3 :=
  fetch_price_single_attempt (mkCircuitBreaker 5 60 60) 0 rfl

/-- C10 counterexample: on a document whose LONG direction passes the
guardrails and scores 89 ≥ 60 but which carries no current price on the
4h or 1h timeframe, `generate_signal` raises (modelled `Except.error`)
instead of returning the LONG signal the claim promises. -/
theorem qualifying_long_without_price_raises :
    raised (generate_signal "BTCUSDT" docNoPrice) = true
      ∧ okSignal? (generate_signal "BTCUSDT" docNoPrice) = none
      ∧ check_guardrails docNoPrice "LONG" true = true
      ∧ 60 ≤ total_score docNoPrice (saOf "BTCUSDT" docNoPrice) "LONG" true := by
  decide

/-- C10 amended: per invocation at most one signal is produced, LONG
strictly preferred — if the LONG try yields a signal it is the result (and
is of type LONG; SHORT is never consulted); a returned SHORT signal proves
the LONG try produced nothing; provided the signal construction does not
raise for want of a current price, the first qualifying direction's signal
is returned. -/
theorem generate_signal_long_precedence (symbol : String) (doc : AnalysisDoc) :
    (∀ s, try_direction symbol doc (saOf symbol doc) "LONG" = Except.ok (some s) →
        generate_signal symbol doc = Except.ok (some s) ∧ s.type = "LONG")
      ∧ (∀ s, generate_signal symbol doc = Except.ok (some s) →
          s.type = "LONG"
            ∨ (s.type = "SHORT"
                ∧ try_direction symbol doc (saOf symbol doc) "LONG" = Except.ok none))
      ∧ (∀ s t, generate_signal symbol doc = Except.ok (some s) →
          generate_signal symbol doc = Except.ok (some t) → s = t) := by
  refine ⟨?_, ?_, ?_⟩
  · intro s htl
    refine ⟨?_, (try_direction_eq_some htl).1⟩
    by_cases he : (saOf symbol doc).isEmpty = true
    · rw [List.isEmpty_iff] at he
      rw [he, try_direction_nil] at htl
      exact absurd htl (by simp)
    · unfold generate_signal
      dsimp only
      rw [if_neg he, htl]
  · intro s h
    rcases generate_signal_eq_some h with htl | ⟨hnone, hts⟩
    · exact Or.inl (try_direction_eq_some htl).1
    · exact Or.inr ⟨(try_direction_eq_some hts).1, hnone⟩
  · intro s t h1 h2
    rw [h1] at h2
    exact Option.some.inj (Except.ok.inj h2)

/-- Witness for C10 amended on the scenario-1 document. -/
theorem generate_signal_long_precedence_witness :
    (generate_signal "BTCUSDT" docS1 = Except.ok (some sigS1) ∧ sigS1.type = "LONG")
      ∧ (sigS1.type = "LONG"
          ∨ (sigS1.type = "SHORT"
              ∧ try_direction "BTCUSDT" docS1 (saOf "BTCUSDT" docS1) "LONG"
                  = Except.ok none))
      ∧ sigS1 = sigS1 :=
  ⟨(generate_signal_long_precedence "BTCUSDT" docS1).1 sigS1 try_direction_docS1,
   (generate_signal_long_precedence "BTCUSDT" docS1).2.1 sigS1 generate_signal_docS1,
   (generate_signal_long_precedence "BTCUSDT" docS1).2.2 sigS1 sigS1
     generate_signal_docS1 generate_signal_docS1⟩

end MarketSig
